import Mathlib

/-!
Shallow embedding of the interactive quadrilateral rectification engine
(`CropEditor`): the quadrilateral model, the drag interaction controller,
the perspective-warp engine (triangulation, affine solving, output sizing),
and the seed/skip adapter.  Normalized coordinates are modelled as exact
rationals; the pixel-space warp pipeline lives over the reals because the
output dimensions involve square roots of Euclidean distances.
-/

/-- A 2-D point with coordinates in `K` (JS `{x, y}` object). -/
structure Pt (K : Type) where
  x : K
  y : K
deriving DecidableEq, Repr

/-- The quadrilateral state: the `points` array of the editor,
indices 0 = top-left, 1 = top-right, 2 = bottom-right, 3 = bottom-left,
in normalized [0,100] coordinates. -/
structure Quad where
  p0 : Pt ℚ
  p1 : Pt ℚ
  p2 : Pt ℚ
  p3 : Pt ℚ
deriving DecidableEq, Repr

/-- Read corner `i` (array access `points[i]`). -/
def Quad.get (q : Quad) : Fin 4 → Pt ℚ
  | 0 => q.p0
  | 1 => q.p1
  | 2 => q.p2
  | 3 => q.p3

/-- Replace corner `i` (array write `points[i] = p`). -/
def Quad.set (q : Quad) (i : Fin 4) (p : Pt ℚ) : Quad :=
  match i with
  | 0 => { q with p0 := p }
  | 1 => { q with p1 := p }
  | 2 => { q with p2 := p }
  | 3 => { q with p3 := p }

/-- `Math.max(0, Math.min(100, v))` — the clamp applied to the normalized
pointer position in `handleDrag`. -/
def clamp100 (v : ℚ) : ℚ := max 0 (min 100 v)

/-- The drag update (`handleDrag`).  `activePoint < 4` relocates that corner
to the clamped pointer position; `activePoint ∈ 4..7` translates the two
endpoints of edge `activePoint - 4` by the vector from the edge's current
midpoint to the clamped pointer position, committing the x- and
y-translations independently, each only when both translated endpoint
coordinates stay inside [0,100].  `mx`/`my` are the raw normalized pointer
coordinates (before the clamp on lines 48–49 of the source). -/
def handleDrag (points : Quad) (activePoint : Fin 8) (mx my : ℚ) : Quad :=
  let mxc := clamp100 mx
  let myc := clamp100 my
  if h : (activePoint : ℕ) < 4 then
    points.set ⟨activePoint, h⟩ ⟨mxc, myc⟩
  else
    let p1Index : Fin 4 := ⟨(activePoint : ℕ) - 4, by omega⟩
    let p2Index : Fin 4 := p1Index + 1
    let p1 := points.get p1Index
    let p2 := points.get p2Index
    let currentMidX := (p1.x + p2.x) / 2
    let currentMidY := (p1.y + p2.y) / 2
    let dx := mxc - currentMidX
    let dy := myc - currentMidY
    let n1x := p1.x + dx
    let n1y := p1.y + dy
    let n2x := p2.x + dx
    let n2y := p2.y + dy
    let q1 :=
      if 0 ≤ n1x ∧ n1x ≤ 100 ∧ 0 ≤ n2x ∧ n2x ≤ 100 then
        (points.set p1Index ⟨n1x, (points.get p1Index).y⟩).set p2Index
          ⟨n2x, (points.get p2Index).y⟩
      else points
    if 0 ≤ n1y ∧ n1y ≤ 100 ∧ 0 ≤ n2y ∧ n2y ≤ 100 then
      (q1.set p1Index ⟨(q1.get p1Index).x, n1y⟩).set p2Index
        ⟨(q1.get p2Index).x, n2y⟩
    else q1

/-- `getMidPoint`: arithmetic midpoint of two points. -/
def getMidPoint (p1 p2 : Pt ℚ) : Pt ℚ :=
  ⟨(p1.x + p2.x) / 2, (p1.y + p2.y) / 2⟩

/-- The edge-handle list rendered by the component: midpoints of edges
(0,1), (1,2), (2,3), (3,0), recomputed from the current corners on every
render. -/
def deriveHandles (points : Quad) : Fin 4 → Pt ℚ
  | 0 => getMidPoint points.p0 points.p1
  | 1 => getMidPoint points.p1 points.p2
  | 2 => getMidPoint points.p2 points.p3
  | 3 => getMidPoint points.p3 points.p0

/-- The seed effect (`useEffect` on `initialPoints`): when a seed of exactly
4 fractional points is present, every corner `i` is overwritten with
`(seed[i].1 * 100, seed[i].2 * 100)`; otherwise the corners are untouched. -/
def applySeed (initialPoints : Option (List (ℚ × ℚ))) (points : Quad) : Quad :=
  match initialPoints with
  | none => points
  | some ip =>
    if h : ip.length = 4 then
      { p0 := ⟨(ip.get ⟨0, by omega⟩).1 * 100, (ip.get ⟨0, by omega⟩).2 * 100⟩
        p1 := ⟨(ip.get ⟨1, by omega⟩).1 * 100, (ip.get ⟨1, by omega⟩).2 * 100⟩
        p2 := ⟨(ip.get ⟨2, by omega⟩).1 * 100, (ip.get ⟨2, by omega⟩).2 * 100⟩
        p3 := ⟨(ip.get ⟨3, by omega⟩).1 * 100, (ip.get ⟨3, by omega⟩).2 * 100⟩ }
    else points

/-! ## The rectification engine (`generatePerspectiveWarp` / `drawTriangle`) -/

/-- Conversion of a normalized corner to pixel space:
`{ x: (p.x / 100) * naturalWidth, y: (p.y / 100) * naturalHeight }`. -/
def toPixel (p : Pt ℚ) (W0 H0 : ℚ) : Pt ℚ :=
  ⟨p.x / 100 * W0, p.y / 100 * H0⟩

/-- The `srcPoints` array of `generatePerspectiveWarp`: corner `i` in pixel
space, injected into the reals (the ambient number type of the engine). -/
def srcPixel (points : Quad) (W0 H0 : ℚ) (i : Fin 4) : Pt ℝ :=
  ⟨((toPixel (points.get i) W0 H0).x : ℝ), ((toPixel (points.get i) W0 H0).y : ℝ)⟩

/-- Euclidean `distance`:
`Math.sqrt(Math.pow(p2.x - p1.x, 2) + Math.pow(p2.y - p1.y, 2))`. -/
noncomputable def distance (p1 p2 : Pt ℝ) : ℝ :=
  Real.sqrt ((p2.x - p1.x) ^ 2 + (p2.y - p1.y) ^ 2)

/-- The six affine coefficients solved inside `drawTriangle`. -/
structure AffineCoeffs (K : Type) where
  a : K
  b : K
  c : K
  d : K
  e : K
  f : K
deriving DecidableEq, Repr

/-- The coefficient solving and degeneracy check of `drawTriangle`
(lines 110–126): `none` models the early `return` when the determinant of
the source triangle is zero (the triangle is skipped, nothing is drawn);
`some` carries the Cramer-rule coefficients used for the clipped
`ctx.transform(a, d, b, e, c, f)` draw. -/
def drawTriangleCoeffs {K : Type} [Field K] [DecidableEq K]
    (s0 s1 s2 t0 t1 t2 : Pt K) : Option (AffineCoeffs K) :=
  let x0 := s0.x; let y0 := s0.y
  let x1 := s1.x; let y1 := s1.y
  let x2 := s2.x; let y2 := s2.y
  let u0 := t0.x; let v0 := t0.y
  let u1 := t1.x; let v1 := t1.y
  let u2 := t2.x; let v2 := t2.y
  let det := x0 * (y1 - y2) - x1 * (y0 - y2) + x2 * (y0 - y1)
  if det = 0 then none
  else
    let a := (u0 * (y1 - y2) - u1 * (y0 - y2) + u2 * (y0 - y1)) / det
    let b := (u1 * (x0 - x2) - u0 * (x1 - x2) - u2 * (x0 - x1)) / det
    let c := u0 - a * x0 - b * y0
    let d := (v0 * (y1 - y2) - v1 * (y0 - y2) + v2 * (y0 - y1)) / det
    let e := (v1 * (x0 - x2) - v0 * (x1 - x2) - v2 * (x0 - x1)) / det
    let f := v0 - d * x0 - e * y0
    some ⟨a, b, c, d, e, f⟩

/-- One `drawTriangle(src, dst)` invocation: the three source-triangle
vertices and the three destination-triangle vertices, in call order. -/
structure DrawCall where
  src0 : Pt ℝ
  src1 : Pt ℝ
  src2 : Pt ℝ
  dst0 : Pt ℝ
  dst1 : Pt ℝ
  dst2 : Pt ℝ

/-- The observable output of `generatePerspectiveWarp`: the canvas
dimensions and the two `drawTriangle` invocations, in program order. -/
structure WarpOutput where
  width : ℝ
  height : ℝ
  calls : List DrawCall

/-- `generatePerspectiveWarp` (lines 87–153): converts the corners to pixel
space, sizes the output canvas from the opposite-edge pixel distances, and
issues the two `drawTriangle` calls along the corner-1–corner-3 diagonal. -/
noncomputable def generatePerspectiveWarp (points : Quad) (W0 H0 : ℚ) : WarpOutput :=
  let src := srcPixel points W0 H0
  let widthTop := distance (src 0) (src 1)
  let widthBottom := distance (src 3) (src 2)
  let finalWidth := max widthTop widthBottom
  let heightLeft := distance (src 0) (src 3)
  let heightRight := distance (src 1) (src 2)
  let finalHeight := max heightLeft heightRight
  { width := finalWidth
    height := finalHeight
    calls :=
      [ ⟨src 0, src 1, src 3, ⟨0, 0⟩, ⟨finalWidth, 0⟩, ⟨0, finalHeight⟩⟩,
        ⟨src 2, src 1, src 3, ⟨finalWidth, finalHeight⟩, ⟨finalWidth, 0⟩,
          ⟨0, finalHeight⟩⟩ ] }

open Classical in
/-- Which of the two `drawTriangle` calls actually draw: `true` exactly when
the call passes the determinant check and issues the clipped transform. -/
noncomputable def renderedList (w : WarpOutput) : List Bool :=
  w.calls.map fun call =>
    (drawTriangleCoeffs call.src0 call.src1 call.src2
      call.dst0 call.dst1 call.dst2).isSome

/-! ## The skip adapter (`handleSkip`) -/

/-- A binary blob, as a byte list. -/
abbrev Blob : Type := List ℕ

/-- `handleSkip` (lines 156–165), as its caller-visible effect: on a
successful re-fetch of `imageSrc` it invokes `onConfirm(blob, imageSrc)`
(first component `some (blob, imageSrc)`); on a fetch failure it only logs
the error to the console (second component) and invokes no callback at all
(first component `none`). -/
def handleSkip (imageSrc : String) (fetchResult : Except String Blob) :
    Option (Blob × String) × List String :=
  match fetchResult with
  | .ok blob => (some (blob, imageSrc), [])
  | .error err => (none, [err])

/-- The initial `useState` value of the corner array (lines 17–22):
a centered inset box. -/
def initQuad : Quad :=
  ⟨⟨20, 20⟩, ⟨80, 20⟩, ⟨80, 80⟩, ⟨20, 80⟩⟩

/-- A concrete fetch environment used to exercise the skip path: every URI
resolves successfully to the byte blob `[1, 2, 3]`. -/
def skipFetchEx : String → Except String Blob :=
  fun _ => Except.ok [1, 2, 3]

/-- The corners of the spec's collinear-triangle scenario:
(0,0), (50,0), (100,0), (50,50) — the top three corners are collinear. -/
def collinearQuad : Quad :=
  ⟨⟨0, 0⟩, ⟨50, 0⟩, ⟨100, 0⟩, ⟨50, 50⟩⟩

/-- A concrete external corner seed of length 4 whose second point has a
first coordinate outside [0,1]. -/
def seedEx : List (ℚ × ℚ) :=
  [(1 / 10, 1 / 10), (2, 0), (9 / 10, 1 / 5), (3 / 10, 4 / 5)]

/-! ## Theorems -/

/-- C1: the engine partitions the quadrilateral into exactly two triangles
along the corner-1–corner-3 diagonal, mapping source triangle
(corner0, corner1, corner3) onto destination ((0,0), (W,0), (0,H)) and
source triangle (corner2, corner1, corner3) onto destination
((W,H), (W,0), (0,H)), in that vertex order, for every quadrilateral. -/
theorem warp_triangulation (points : Quad) (W0 H0 : ℚ) :
    (generatePerspectiveWarp points W0 H0).calls =
      [ ⟨srcPixel points W0 H0 0, srcPixel points W0 H0 1, srcPixel points W0 H0 3,
          ⟨0, 0⟩,
          ⟨(generatePerspectiveWarp points W0 H0).width, 0⟩,
          ⟨0, (generatePerspectiveWarp points W0 H0).height⟩⟩,
        ⟨srcPixel points W0 H0 2, srcPixel points W0 H0 1, srcPixel points W0 H0 3,
          ⟨(generatePerspectiveWarp points W0 H0).width,
            (generatePerspectiveWarp points W0 H0).height⟩,
          ⟨(generatePerspectiveWarp points W0 H0).width, 0⟩,
          ⟨0, (generatePerspectiveWarp points W0 H0).height⟩⟩ ] := rfl

/-- C2: each corner is converted to pixel space as ((x/100)·W0, (y/100)·H0),
the output width is max(distance(corner0, corner1), distance(corner3,
corner2)) and the output height is max(distance(corner0, corner3),
distance(corner1, corner2)), all in pixel space. -/
theorem warp_dimensions (points : Quad) (W0 H0 : ℚ) :
    (∀ i : Fin 4, srcPixel points W0 H0 i =
        ⟨(((points.get i).x / 100 * W0 : ℚ) : ℝ),
          (((points.get i).y / 100 * H0 : ℚ) : ℝ)⟩) ∧
    (generatePerspectiveWarp points W0 H0).width =
      max (distance (srcPixel points W0 H0 0) (srcPixel points W0 H0 1))
        (distance (srcPixel points W0 H0 3) (srcPixel points W0 H0 2)) ∧
    (generatePerspectiveWarp points W0 H0).height =
      max (distance (srcPixel points W0 H0 0) (srcPixel points W0 H0 3))
        (distance (srcPixel points W0 H0 1) (srcPixel points W0 H0 2)) :=
  ⟨fun _ => rfl, rfl, rfl⟩

/-- C5: a corner drag stores the pointer position clamped to [0,100] on each
axis independently, replacing exactly the active corner, and the stored
value is never out of range. -/
theorem cornerDrag_clamps (points : Quad) (i : Fin 8) (hi : (i : ℕ) < 4)
    (mx my : ℚ) :
    handleDrag points i mx my =
      points.set ⟨i, hi⟩ ⟨clamp100 mx, clamp100 my⟩ ∧
    0 ≤ clamp100 mx ∧ clamp100 mx ≤ 100 ∧
    0 ≤ clamp100 my ∧ clamp100 my ≤ 100 := by
  refine ⟨?_, le_max_left _ _, ?_, le_max_left _ _, ?_⟩
  · simp [handleDrag, hi]
  · simp [clamp100, max_le_iff]
  · simp [clamp100, max_le_iff]

/-- Witness for C5: dragging corner 0 to the out-of-range pointer
(150, -5) stores the clamped corner (100, 0). -/
theorem cornerDrag_clamps_witness :
    ((0 : Fin 8) : ℕ) < 4 ∧
    (handleDrag initQuad 0 150 (-5) =
      initQuad.set ⟨0, by decide⟩ ⟨clamp100 150, clamp100 (-5)⟩ ∧
    0 ≤ clamp100 150 ∧ clamp100 150 ≤ 100 ∧
    0 ≤ clamp100 (-5) ∧ clamp100 (-5) ≤ 100) :=
  ⟨by decide, cornerDrag_clamps initQuad 0 (by decide) 150 (-5)⟩

/-- C7: every edge handle is derived as the arithmetic midpoint of corners
`i` and `(i+1) mod 4`, recomputed from the current corners — in particular
it is recomputed from the mutated corners after any `Quad.set`. -/
theorem handles_are_midpoints (points : Quad) (i : Fin 4) :
    deriveHandles points i =
      ⟨((points.get i).x + (points.get (i + 1)).x) / 2,
        ((points.get i).y + (points.get (i + 1)).y) / 2⟩ ∧
    ∀ (j : Fin 4) (p : Pt ℚ),
      deriveHandles (points.set j p) i =
        getMidPoint ((points.set j p).get i) ((points.set j p).get (i + 1)) := by
  constructor
  · fin_cases i <;> rfl
  · intro j p
    fin_cases i <;> rfl

/-- C8: a successful skip invokes the confirm callback with exactly the
blob fetched back from the original source and the source's own URI as
preview, logging no error — bypassing the warp engine. -/
theorem skip_forwards_original (fetch : String → Except String Blob)
    (imageSrc : String) (b : Blob) (h : fetch imageSrc = Except.ok b) :
    handleSkip imageSrc (fetch imageSrc) = (some (b, imageSrc), []) := by
  rw [h]
  rfl

/-- Witness for C8: a fetch environment answering `[1,2,3]` leads to the
confirm callback receiving `([1,2,3], "uri")`. -/
theorem skip_forwards_original_witness :
    skipFetchEx "uri" = Except.ok [1, 2, 3] ∧
    handleSkip "uri" (skipFetchEx "uri") = (some ([1, 2, 3], "uri"), []) :=
  ⟨rfl, skip_forwards_original skipFetchEx "uri" [1, 2, 3] rfl⟩

/-- C9 (counterexample): on a fetch failure in the skip path the component
invokes no caller-facing callback at all — the confirm channel stays `none`
and the error goes only to the console log — contradicting the claim that
the failure is reported to the caller. -/
theorem skip_failure_counterexample :
    handleSkip "blob:source" (Except.error "network failure") =
      (none, ["network failure"]) := rfl

/-- C9 (amended): on a fetch failure the skip path catches the error and
logs it to the console; the confirm callback is not invoked (no empty
result is produced), but no error reaches the caller. -/
theorem skip_failure_swallowed (imageSrc err : String) :
    handleSkip imageSrc (Except.error err) = (none, [err]) := rfl

/-- C10: a seed of exactly 4 points overwrites corner `i` with
(seed[i].1·100, seed[i].2·100) without clamping — a first coordinate above 1
yields an x-coordinate above 100 — while a seed of any other length (or a
missing seed) leaves every corner unchanged. -/
theorem applySeed_spec (seed : List (ℚ × ℚ)) (points : Quad) :
    (∀ h4 : seed.length = 4, ∀ i : Fin 4,
      (applySeed (some seed) points).get i =
        ⟨(seed.get ⟨i, h4.symm ▸ i.isLt⟩).1 * 100,
          (seed.get ⟨i, h4.symm ▸ i.isLt⟩).2 * 100⟩) ∧
    (∀ h4 : seed.length = 4, ∀ i : Fin 4,
      1 < (seed.get ⟨i, h4.symm ▸ i.isLt⟩).1 →
        100 < ((applySeed (some seed) points).get i).x) ∧
    (seed.length ≠ 4 → applySeed (some seed) points = points) ∧
    applySeed none points = points := by
  refine ⟨fun h4 i => ?_, fun h4 i hgt => ?_, fun hne => ?_, rfl⟩
  · simp only [applySeed, dif_pos h4]
    fin_cases i <;> rfl
  · have hx : ((applySeed (some seed) points).get i).x =
        (seed.get ⟨i, h4.symm ▸ i.isLt⟩).1 * 100 := by
      simp only [applySeed, dif_pos h4]
      fin_cases i <;> rfl
    rw [hx]
    linarith
  · simp only [applySeed, dif_neg hne]

/-- C3: whenever the source-triangle determinant is nonzero, the six
Cramer-rule coefficients computed by `drawTriangle` map each source vertex
exactly onto the corresponding destination vertex. -/
theorem drawTriangle_coeffs_exact (s0 s1 s2 t0 t1 t2 : Pt ℚ)
    (h : s0.x * (s1.y - s2.y) - s1.x * (s0.y - s2.y) + s2.x * (s0.y - s1.y) ≠ 0) :
    ∃ co : AffineCoeffs ℚ,
      drawTriangleCoeffs s0 s1 s2 t0 t1 t2 = some co ∧
      co.a * s0.x + co.b * s0.y + co.c = t0.x ∧
      co.a * s1.x + co.b * s1.y + co.c = t1.x ∧
      co.a * s2.x + co.b * s2.y + co.c = t2.x ∧
      co.d * s0.x + co.e * s0.y + co.f = t0.y ∧
      co.d * s1.x + co.e * s1.y + co.f = t1.y ∧
      co.d * s2.x + co.e * s2.y + co.f = t2.y := by
  simp only [drawTriangleCoeffs]
  rw [if_neg h]
  refine ⟨_, rfl, ?_, ?_, ?_, ?_, ?_, ?_⟩ <;> (field_simp <;> ring)

/-- Witness for C3: the unit right triangle mapped onto an arbitrary
destination triangle; the determinant is 1 and the coefficients reproduce
all three correspondences. -/
theorem drawTriangle_coeffs_exact_witness :
    ((0 : ℚ) * (0 - 1) - 1 * (0 - 1) + 0 * (0 - 0) ≠ 0) ∧
    (∃ co : AffineCoeffs ℚ,
      drawTriangleCoeffs ⟨0, 0⟩ ⟨1, 0⟩ ⟨0, 1⟩ ⟨5, 6⟩ ⟨7, 8⟩ ⟨9, 10⟩ = some co ∧
      co.a * 0 + co.b * 0 + co.c = 5 ∧
      co.a * 1 + co.b * 0 + co.c = 7 ∧
      co.a * 0 + co.b * 1 + co.c = 9 ∧
      co.d * 0 + co.e * 0 + co.f = 6 ∧
      co.d * 1 + co.e * 0 + co.f = 8 ∧
      co.d * 0 + co.e * 1 + co.f = 10) :=
  ⟨by norm_num, drawTriangle_coeffs_exact ⟨0, 0⟩ ⟨1, 0⟩ ⟨0, 1⟩ ⟨5, 6⟩ ⟨7, 8⟩
    ⟨9, 10⟩ (by norm_num)⟩

/-- C4 (amended, general part): a degenerate source triangle — zero
determinant — makes `drawTriangle` return early: no coefficients are
produced and nothing is drawn for that triangle. -/
theorem drawTriangle_skips_degenerate (s0 s1 s2 t0 t1 t2 : Pt ℚ)
    (h : s0.x * (s1.y - s2.y) - s1.x * (s0.y - s2.y) + s2.x * (s0.y - s1.y) = 0) :
    drawTriangleCoeffs s0 s1 s2 t0 t1 t2 = none := by
  simp only [drawTriangleCoeffs]
  rw [if_pos h]

/-- Witness for C4: the collinear triangle (0,0), (50,0), (100,0) is
skipped. -/
theorem drawTriangle_skips_degenerate_witness :
    ((0 : ℚ) * (0 - 0) - 50 * (0 - 0) + 100 * (0 - 0) = 0) ∧
    drawTriangleCoeffs (⟨0, 0⟩ : Pt ℚ) ⟨50, 0⟩ ⟨100, 0⟩ ⟨0, 0⟩ ⟨1, 0⟩ ⟨0, 1⟩ =
      none :=
  ⟨by norm_num,
    drawTriangle_skips_degenerate ⟨0, 0⟩ ⟨50, 0⟩ ⟨100, 0⟩ ⟨0, 0⟩ ⟨1, 0⟩ ⟨0, 1⟩
      (by norm_num)⟩

/-- C4 (counterexample to the scenario): with corners (0,0), (50,0),
(100,0), (50,50) on a 1000×1000 source, the 1–3-diagonal triangulation
never forms a triangle from the three collinear corners — both issued
triangles have nonzero determinant and both are rendered, so no triangle
is skipped. -/
theorem collinear_scenario_both_render :
    renderedList (generatePerspectiveWarp collinearQuad 1000 1000) =
      [true, true] := by
  norm_num [renderedList, generatePerspectiveWarp, srcPixel, toPixel,
    Quad.get, collinearQuad, drawTriangleCoeffs]

lemma Quad.get_set_self (q : Quad) (i : Fin 4) (p : Pt ℚ) :
    (q.set i p).get i = p := by
  fin_cases i <;> rfl

lemma Quad.get_set_succ (q : Quad) (i : Fin 4) (p : Pt ℚ) :
    (q.set (i + 1) p).get i = q.get i := by
  fin_cases i <;> rfl

lemma Quad.get_succ_set (q : Quad) (i : Fin 4) (p : Pt ℚ) :
    (q.set i p).get (i + 1) = q.get (i + 1) := by
  fin_cases i <;> rfl

/-- C6: dragging edge `k` translates its endpoints `k` and `k+1` by the
delta from the edge midpoint to the clamped pointer; the x-translation is
committed exactly when both translated x-coordinates lie in [0,100], the
y-translation exactly when both translated y-coordinates lie in [0,100],
and the two axis decisions are independent of each other. -/
theorem moveEdge_axis_independent (points : Quad) (k : Fin 4) (mx my dx dy : ℚ)
    (hdx : dx = clamp100 mx - ((points.get k).x + (points.get (k + 1)).x) / 2)
    (hdy : dy = clamp100 my - ((points.get k).y + (points.get (k + 1)).y) / 2) :
    (handleDrag points ⟨(k : ℕ) + 4, Nat.add_lt_add_right k.isLt 4⟩ mx my).get k =
      ⟨if 0 ≤ (points.get k).x + dx ∧ (points.get k).x + dx ≤ 100 ∧
            0 ≤ (points.get (k + 1)).x + dx ∧ (points.get (k + 1)).x + dx ≤ 100
          then (points.get k).x + dx else (points.get k).x,
        if 0 ≤ (points.get k).y + dy ∧ (points.get k).y + dy ≤ 100 ∧
            0 ≤ (points.get (k + 1)).y + dy ∧ (points.get (k + 1)).y + dy ≤ 100
          then (points.get k).y + dy else (points.get k).y⟩ ∧
    (handleDrag points ⟨(k : ℕ) + 4, Nat.add_lt_add_right k.isLt 4⟩ mx my).get
        (k + 1) =
      ⟨if 0 ≤ (points.get k).x + dx ∧ (points.get k).x + dx ≤ 100 ∧
            0 ≤ (points.get (k + 1)).x + dx ∧ (points.get (k + 1)).x + dx ≤ 100
          then (points.get (k + 1)).x + dx else (points.get (k + 1)).x,
        if 0 ≤ (points.get k).y + dy ∧ (points.get k).y + dy ≤ 100 ∧
            0 ≤ (points.get (k + 1)).y + dy ∧ (points.get (k + 1)).y + dy ≤ 100
          then (points.get (k + 1)).y + dy else (points.get (k + 1)).y⟩ := by
  subst hdx hdy
  constructor <;>
    (simp only [handleDrag]
     rw [dif_neg (by omega : ¬((k : ℕ) + 4 < 4))]
     simp only [Fin.val_mk, Nat.add_sub_cancel, Fin.eta]
     split_ifs <;>
       simp only [Quad.get_set_self, Quad.get_set_succ, Quad.get_succ_set])

/-- Witness for C6: on the default quadrilateral, dragging the top edge
(edge 0, midpoint (50,20)) to pointer (95,60) gives delta (45,40); the
x-translation would push corner 1 to 125 > 100 and is rejected, while the
y-translation is still applied — both endpoints keep their x and move to
y = 60. -/
theorem moveEdge_axis_independent_witness :
    ((45 : ℚ) = clamp100 95 - ((initQuad.get 0).x + (initQuad.get 1).x) / 2) ∧
    ((40 : ℚ) = clamp100 60 - ((initQuad.get 0).y + (initQuad.get 1).y) / 2) ∧
    ((handleDrag initQuad ⟨4, by omega⟩ 95 60).get 0 =
      ⟨if 0 ≤ (initQuad.get 0).x + 45 ∧ (initQuad.get 0).x + 45 ≤ 100 ∧
            0 ≤ (initQuad.get 1).x + 45 ∧ (initQuad.get 1).x + 45 ≤ 100
          then (initQuad.get 0).x + 45 else (initQuad.get 0).x,
        if 0 ≤ (initQuad.get 0).y + 40 ∧ (initQuad.get 0).y + 40 ≤ 100 ∧
            0 ≤ (initQuad.get 1).y + 40 ∧ (initQuad.get 1).y + 40 ≤ 100
          then (initQuad.get 0).y + 40 else (initQuad.get 0).y⟩ ∧
    (handleDrag initQuad ⟨4, by omega⟩ 95 60).get 1 =
      ⟨if 0 ≤ (initQuad.get 0).x + 45 ∧ (initQuad.get 0).x + 45 ≤ 100 ∧
            0 ≤ (initQuad.get 1).x + 45 ∧ (initQuad.get 1).x + 45 ≤ 100
          then (initQuad.get 1).x + 45 else (initQuad.get 1).x,
        if 0 ≤ (initQuad.get 0).y + 40 ∧ (initQuad.get 0).y + 40 ≤ 100 ∧
            0 ≤ (initQuad.get 1).y + 40 ∧ (initQuad.get 1).y + 40 ≤ 100
          then (initQuad.get 1).y + 40 else (initQuad.get 1).y⟩) :=
  ⟨by norm_num [clamp100, initQuad, Quad.get],
   by norm_num [clamp100, initQuad, Quad.get],
   moveEdge_axis_independent initQuad 0 95 60 45 40
     (by norm_num [clamp100, initQuad, Quad.get])
     (by norm_num [clamp100, initQuad, Quad.get])⟩

/-- Witness for C10: the 4-point seed `seedEx` overwrites corner 1 with
(2·100, 0·100); its first coordinate 2 lies outside [0,1], and the stored
x-coordinate 200 lies outside [0,100] — no clamping happened. -/
theorem applySeed_spec_witness :
    seedEx.length = 4 ∧
    (applySeed (some seedEx) initQuad).get 1 =
      ⟨(seedEx.get ⟨1, by decide⟩).1 * 100, (seedEx.get ⟨1, by decide⟩).2 * 100⟩ ∧
    (1 : ℚ) < (seedEx.get ⟨1, by decide⟩).1 ∧
    100 < ((applySeed (some seedEx) initQuad).get 1).x :=
  ⟨rfl, (applySeed_spec seedEx initQuad).1 rfl 1,
   by norm_num [seedEx],
   (applySeed_spec seedEx initQuad).2.1 rfl 1 (by norm_num [seedEx])⟩
